import Mathlib

/-!
Verification of the `cdk-validator-kics` plugin (`src/plugin.ts`).

The plugin wraps the KICS scanner: it builds an argument vector from its
configuration and the validation context's template paths, executes the
scanner, reads and parses the JSON report, maps each reported query to a
normalized violation, and returns `{violations, success}`.

Embedding notes:
* `os.platform()`, `os.arch()`, `__dirname` and the temporary report
  directory are passed in as explicit string parameters.
* Node's `path.dirname` / `path.basename` / `path.join` (posix flavour)
  are modelled in the `CdkKics.Path` namespace.
* The outcome of `exec` + `readFileSync` + `JSON.parse` is abstracted into
  a `ScanOutcome` value: either one of the three possible thrown errors or
  a parsed `KicsSchema` value.
* `./private/schema` and `./utils` are imported by `plugin.ts` but are not
  among the sources; the pieces taken from them (`Severity`,
  `QueryCategory`, the throwing behaviour of `exec`) are modelled from the
  spec and marked as such.
-/

namespace CdkKics

namespace Path

/-- Split a character list on `'/'`, keeping empty segments, mirroring
JavaScript's `"a/b".split("/")` shape used implicitly by Node's posix
path normalization. `splitSlashAux cs cur` has accumulated the current
(reversed) segment `cur`. -/
def splitSlashAux : List Char → List Char → List String
  | [], cur => [⟨cur.reverse⟩]
  | c :: rest, cur =>
    if c = '/' then ⟨cur.reverse⟩ :: splitSlashAux rest []
    else splitSlashAux rest (c :: cur)

/-- Join segments with `'/'`. -/
def joinSlash : List String → String
  | [] => ""
  | [s] => s
  | s :: rest => s ++ "/" ++ joinSlash rest

/-- One step of Node's posix `normalize` segment resolution: drop empty
and `"."` segments, resolve `".."` against the accumulated output
(keeping it only when `allowAbove` is set and there is nothing to pop). -/
def normStep (allowAbove : Bool) (acc : List String) (seg : String) : List String :=
  if seg = "" ∨ seg = "." then acc
  else if seg = ".." then
    if acc ≠ [] ∧ acc.getLast? ≠ some ".." then acc.dropLast
    else if allowAbove then acc ++ [".."] else acc
  else acc ++ [seg]

/-- Node's `path.posix.normalize`: resolves `"."`/`".."`/repeated
separators, preserving a leading root `/` and a trailing separator. -/
def normalize (p : String) : String :=
  if p.isEmpty then "."
  else
    let isAbs := p.data.head? = some '/'
    let hasTrail := p.data.getLast? = some '/'
    let segs := (splitSlashAux p.data []).foldl (normStep (!isAbs)) []
    let body := joinSlash segs
    if body.isEmpty then
      if isAbs then "/" else if hasTrail then "./" else "."
    else
      (if isAbs then "/" else "") ++ body ++ (if hasTrail then "/" else "")

/-- Node's `path.posix.join`: drop empty arguments, join with `/`,
normalize; all-empty input yields `"."`. -/
def join (parts : List String) : String :=
  let joined := joinSlash (parts.filter (fun s => ¬ s.isEmpty))
  if joined.isEmpty then "." else normalize joined

/-- Node's `path.posix.dirname`: everything before the last separator of
the last path component (trailing separators ignored), with the usual
`"."` / `"/"` / `"//"` special cases. -/
def dirname (p : String) : String :=
  if p.isEmpty then "."
  else
    let hasRoot := p.data.head? = some '/'
    let tl := p.data.drop 1
    let rtrimmed := tl.reverse.dropWhile (fun c => c = '/')
    let rest := rtrimmed.dropWhile (fun c => c ≠ '/')
    if rest.isEmpty then (if hasRoot then "/" else ".")
    else if hasRoot ∧ rest.length = 1 then "//"
    else ⟨p.data.take rest.length⟩

/-- Node's `path.posix.basename` (one-argument form): the last path
component, with trailing separators stripped. -/
def basename (p : String) : String :=
  let r := p.data.reverse.dropWhile (fun c => c = '/')
  ⟨(r.takeWhile (fun c => c ≠ '/')).reverse⟩

end Path

/-- Modelled from the spec: the severity string enum exported by
`./private/schema` (a file referenced by `plugin.ts` but not among the
sources); the spec fixes its members as CRITICAL/HIGH/MEDIUM/LOW/INFO. -/
inductive Severity where
  | CRITICAL
  | HIGH
  | MEDIUM
  | LOW
  | INFO
deriving DecidableEq, Repr

/-- The string value of a `Severity` member (it is a TypeScript string
enum: members are used directly as command-line flag values). -/
def Severity.str : Severity → String
  | .CRITICAL => "CRITICAL"
  | .HIGH => "HIGH"
  | .MEDIUM => "MEDIUM"
  | .LOW => "LOW"
  | .INFO => "INFO"

/-- Modelled from the spec: `QueryCategory` from `./private/schema` (not
among the sources) is a string-valued grouping label for findings. -/
abbrev QueryCategory := String

/-- One entry of a query's `files` list in the KICS JSON report
(the fields `plugin.ts` reads from it). -/
structure RawFileMatch where
  file_name : String
  resource_name : String
  search_key : String
deriving DecidableEq, Repr

/-- One entry of the report's `queries` list (the fields `plugin.ts`
reads from it). `files = none` models a JSON object in which the `files`
field is absent: JavaScript then yields `undefined` and accessing
`.map` on it throws. -/
structure RawFinding where
  query_name : String
  query_url : String
  description : String
  severity : String
  files : Option (List RawFileMatch)
deriving DecidableEq, Repr

/-- The parsed KICS report (`KicsSchema`): an object with a `queries`
list. -/
structure KicsSchema where
  queries : List RawFinding
deriving DecidableEq, Repr

/-- One violating resource of a normalized violation
(`ValidationViolationResourceAware.violatingResources` element). -/
structure ViolatingResource where
  resourceLogicalId : String
  templatePath : String
  locations : List String
deriving DecidableEq, Repr

/-- A normalized violation (`ValidationViolationResourceAware`). -/
structure Violation where
  fix : String
  ruleName : String
  description : String
  severity : String
  violatingResources : List ViolatingResource
deriving DecidableEq, Repr

/-- The value returned by `validate` (`ValidationPluginReport`). -/
structure ValidationPluginReport where
  violations : List Violation
  success : Bool
deriving DecidableEq, Repr

/-- Configuration options for the plugin (`KicsValidatorProps`);
`none` models an options object without that field. -/
structure KicsValidatorProps where
  excludeCategories : Option (List QueryCategory) := none
  excludeQueries : Option (List String) := none
  excludeSeverities : Option (List Severity) := none
  failureSeverities : Option (List Severity) := none

/-- The constructed plugin state: the fields assigned by the
`KicsValidator` constructor. -/
structure KicsValidator where
  name : String
  kics : String
  excludeQueries : Option (List String)
  excludeCategories : Option (List String)
  excludeSeverities : Option (List String)
  failureSeverities : List String
deriving DecidableEq, Repr

/-- `getArch` from `plugin.ts`: maps Node's `os.arch()` string to the
binary-directory architecture name, throwing on anything other than
`x64`/`arm64`. (The thrown message interpolates the `os.arch` function
object itself, a quirk not load-bearing here; the message text is fixed.) -/
def getArch (osArch : String) : Except String String :=
  match osArch with
  | "x64" => Except.ok "amd64"
  | "arm64" => Except.ok "arm64"
  | _ => Except.error "Architecture is not supported"

/-- The `KicsValidator` constructor. `osPlatform` models `os.platform()`,
`osArch` models `os.arch()`, `dirnameStr` models `__dirname`. An
unsupported architecture makes `getArch` throw, so construction fails. -/
def KicsValidator.construct (props : KicsValidatorProps) (osPlatform osArch dirnameStr : String) :
    Except String KicsValidator :=
  let platform := if osPlatform = "win32" then "windows" else osPlatform
  match getArch osArch with
  | Except.error e => Except.error e
  | Except.ok arch =>
    Except.ok
      { name := "cdk-validator-kics"
        excludeQueries := props.excludeQueries
        excludeCategories := props.excludeCategories
        excludeSeverities := props.excludeSeverities.map (fun l => l.map Severity.str)
        failureSeverities := (props.failureSeverities.getD [Severity.HIGH, Severity.MEDIUM]).map Severity.str
        kics := Path.join [dirnameStr, "..", "bin", platform ++ "_" ++ arch,
          if platform = "windows" then "kics.exe" else "kics"] }

/-- `vs.flatMap (v => [flag, v])`: the repeated-flag fragment pattern
used for `--path`, `--fail-on` and the `--exclude-*` flags. -/
def pairFlags (flag : String) : List String → List String
  | [] => []
  | v :: rest => flag :: v :: pairFlags flag rest

/-- `opt ? opt.flatMap (v => [flag, v]) : []` — note that in JavaScript an
empty array is truthy, so `some []` and `none` both contribute `[]`. -/
def optFlags (flag : String) : Option (List String) → List String
  | none => []
  | some vs => pairFlags flag vs

/-- The argument vector `flags` built by `validate` before calling
`exec`. `reportDir` models `fs.realpathSync(os.tmpdir())` and
`dirnameStr` models `__dirname`. -/
def KicsValidator.flags (v : KicsValidator) (templatePaths : List String)
    (reportDir dirnameStr : String) : List String :=
  [v.kics, "scan"]
  ++ pairFlags "--path" templatePaths
  ++ ["--output-path", reportDir,
      "--output-name", v.name,
      "--libraries-path", Path.join [dirnameStr, "..", "assets", "libraries"],
      "--queries-path", Path.join [dirnameStr, "..", "assets", "queries"]]
  ++ pairFlags "--fail-on" v.failureSeverities
  ++ optFlags "--exclude-queries" v.excludeQueries
  ++ optFlags "--exclude-categories" v.excludeCategories
  ++ optFlags "--exclude-severities" v.excludeSeverities
  ++ ["--ci", "--report-formats", "\"json\""]

/-- The combined outcome of `exec(flags)`, `fs.readFileSync` and
`JSON.parse` inside `validate`'s `try` block.
`execError` is modelled from the spec: `exec` (from `./utils`, not among
the sources) throws on invocation failure (spawn error or detected
abnormal exit). `readError` models `readFileSync` throwing (report file
missing), `parseError` models `JSON.parse` throwing (malformed JSON). -/
inductive ScanOutcome where
  | execError
  | readError
  | parseError
  | parsed (output : KicsSchema)
deriving DecidableEq, Repr

/-- Mapping of one file match to a violating resource
(the body of `query.files.map ((file) => ...)`). -/
def mapFile (f : RawFileMatch) : ViolatingResource :=
  { resourceLogicalId := f.resource_name
    templatePath := Path.join [Path.dirname f.file_name, Path.basename f.file_name]
    locations := [f.search_key] }

/-- Building the violation pushed for one query. Returns `none` when the
query's `files` field is absent: evaluating `query.files.map` then throws
a `TypeError`, aborting the `forEach`. -/
def mapQuery (q : RawFinding) : Option Violation :=
  match q.files with
  | none => none
  | some fs =>
    some
      { fix := q.query_url
        ruleName := q.query_name
        description := q.description
        severity := q.severity
        violatingResources := fs.map mapFile }

/-- The `output.queries.forEach` loop: each iteration first sets
`success = false`, then pushes the mapped violation; a thrown error stops
the loop with the violations pushed so far kept (the `catch` block then
sets `success = false` and the function returns normally). The result is
the final `(success, violations)` pair. -/
def runQueries : List RawFinding → Bool → List Violation → Bool × List Violation
  | [], success, acc => (success, acc)
  | q :: rest, _, acc =>
    match mapQuery q with
    | none => (false, acc)
    | some vio => runQueries rest false (acc ++ [vio])

/-- `KicsValidator.validate`, given the outcome of the process/report
stage: any thrown error is caught, logged and turned into
`{violations: [], success: false}`; a parsed report is folded by the
`forEach` loop starting from `success = true`, `violations = []`.
`validate` never throws: it is a total function into
`ValidationPluginReport`. The template paths are consulted only to build
the argument vector, never to decide the result. -/
def KicsValidator.validate (_v : KicsValidator) (_templatePaths : List String)
    (outcome : ScanOutcome) : ValidationPluginReport :=
  match outcome with
  | ScanOutcome.parsed output =>
    let r := runQueries output.queries true []
    { violations := r.2, success := r.1 }
  | _ => { violations := [], success := false }

/-- The total variant of `mapQuery` used to state the mapper's
correctness on schema-conforming findings (`files` present): on such a
finding `mapQuery` returns exactly this violation. -/
def mapQueryTotal (q : RawFinding) : Violation :=
  { fix := q.query_url
    ruleName := q.query_name
    description := q.description
    severity := q.severity
    violatingResources := (q.files.getD []).map mapFile }

/-- `Except.ok`-ness as a Boolean, to state when construction succeeds. -/
def exOk {ε α : Type} : Except ε α → Bool
  | Except.ok _ => true
  | Except.error _ => false

/-- The values carried by a repeated two-token flag in an argument
vector: each occurrence of `flag` consumes the following token as its
value, scanning left to right. -/
def flagValues (flag : String) : List String → List String
  | a :: b :: rest =>
    if a = flag then b :: flagValues flag rest else flagValues flag (b :: rest)
  | _ => []

/-- A concrete validator instance (the fields produced by constructing on
linux/x64 with default props) used by the witnesses. -/
def vWit : KicsValidator :=
  { name := "cdk-validator-kics"
    kics := "/plugin/bin/linux_amd64/kics"
    excludeQueries := none
    excludeCategories := none
    excludeSeverities := none
    failureSeverities := ["HIGH", "MEDIUM"] }

/-- A concrete file match used by the witnesses. -/
def fWitA : RawFileMatch :=
  { file_name := "/a/template.json", resource_name := "BucketA",
    search_key := "Resources.BucketA" }

/-- A second concrete file match, with a doubled separator that the
dirname/basename re-join normalizes away. -/
def fWitB : RawFileMatch :=
  { file_name := "sub//tpl.yaml", resource_name := "BucketB",
    search_key := "Resources.BucketB" }

/-- A concrete well-formed finding with two file matches. -/
def qWit : RawFinding :=
  { query_name := "S3 Bucket Logging Disabled"
    query_url := "https://docs.kics.io/q"
    description := "Server access logging should be enabled"
    severity := "HIGH"
    files := some [fWitA, fWitB] }

/-- A concrete malformed finding: its `files` field is absent, so mapping
it throws. -/
def qWitBad : RawFinding :=
  { query_name := "Broken entry", query_url := "u", description := "d",
    severity := "LOW", files := none }

/-- Concrete constructor props used by the witnesses: no
`failureSeverities`, one excluded query, absent excluded categories,
one excluded severity. -/
def propsWit : KicsValidatorProps :=
  { excludeCategories := none
    excludeQueries := some ["q1"]
    excludeSeverities := some [Severity.LOW]
    failureSeverities := none }

/-- The validator that `construct propsWit "linux" "x64" "/plugin/lib"`
produces. -/
def vConsWit : KicsValidator :=
  { name := "cdk-validator-kics"
    kics := "/plugin/bin/linux_amd64/kics"
    excludeQueries := some ["q1"]
    excludeCategories := none
    excludeSeverities := some ["LOW"]
    failureSeverities := ["HIGH", "MEDIUM"] }

lemma runQueries_false (l : List RawFinding) (acc : List Violation) :
    (runQueries l false acc).1 = false := by
  induction l generalizing acc with
  | nil => rfl
  | cons q rest ih =>
    show (match mapQuery q with
      | none => (false, acc)
      | some vio => runQueries rest false (acc ++ [vio])).1 = false
    cases mapQuery q with
    | none => rfl
    | some vio => exact ih (acc ++ [vio])

lemma runQueries_cons_fst (q : RawFinding) (rest : List RawFinding) (s : Bool)
    (acc : List Violation) : (runQueries (q :: rest) s acc).1 = false := by
  show (match mapQuery q with
    | none => (false, acc)
    | some vio => runQueries rest false (acc ++ [vio])).1 = false
  cases mapQuery q with
  | none => rfl
  | some vio => exact runQueries_false rest (acc ++ [vio])

lemma runQueries_wf (l : List RawFinding) (s : Bool) (acc : List Violation)
    (h : ∀ q ∈ l, q.files ≠ none) :
    runQueries l s acc = (s && l.isEmpty, acc ++ l.map mapQueryTotal) := by
  induction l generalizing s acc with
  | nil => simp [runQueries]
  | cons q rest ih =>
    obtain ⟨fs, hfs⟩ := Option.ne_none_iff_exists'.mp (h q (List.mem_cons_self q rest))
    have hrest : ∀ p ∈ rest, p.files ≠ none := fun p hp => h p (List.mem_cons_of_mem q hp)
    have hmq : mapQuery q = some (mapQueryTotal q) := by
      simp [mapQuery, mapQueryTotal, hfs]
    simp only [runQueries, hmq, ih false (acc ++ [mapQueryTotal q]) hrest]
    simp [List.append_assoc]

lemma runQueries_stops (front : List RawFinding) (bad : RawFinding)
    (l2 : List RawFinding) (s : Bool) (acc : List Violation)
    (h1 : ∀ q ∈ front, q.files ≠ none) (hb : bad.files = none) :
    runQueries (front ++ bad :: l2) s acc = (false, acc ++ front.map mapQueryTotal) := by
  induction front generalizing s acc with
  | nil =>
    have hmq : mapQuery bad = none := by simp [mapQuery, hb]
    simp only [List.nil_append, runQueries, hmq]
    simp
  | cons q front ih =>
    obtain ⟨fs, hfs⟩ := Option.ne_none_iff_exists'.mp (h1 q (List.mem_cons_self q front))
    have hfront : ∀ p ∈ front, p.files ≠ none := fun p hp => h1 p (List.mem_cons_of_mem q hp)
    have hmq : mapQuery q = some (mapQueryTotal q) := by
      simp [mapQuery, mapQueryTotal, hfs]
    simp only [List.cons_append, runQueries, hmq, List.append_eq]
    rw [ih false (acc ++ [mapQueryTotal q]) hfront]
    simp [List.append_assoc]

lemma mem_pairFlags {x flag : String} {vs : List String} (hx : x ∈ pairFlags flag vs) :
    x = flag ∨ x ∈ vs := by
  induction vs with
  | nil => simp [pairFlags] at hx
  | cons v rest ih =>
    simp only [pairFlags, List.mem_cons] at hx
    rcases hx with h | h | h
    · exact Or.inl h
    · exact Or.inr (by simp [h])
    · rcases ih h with h | h
      · exact Or.inl h
      · exact Or.inr (List.mem_cons_of_mem v h)

lemma not_mem_pairFlags {x flag : String} {vs : List String} (h1 : x ≠ flag) (h2 : x ∉ vs) :
    x ∉ pairFlags flag vs := fun hx => by
  rcases mem_pairFlags hx with h | h
  · exact h1 h
  · exact h2 h

lemma not_mem_optFlags {x flag : String} {o : Option (List String)} (h1 : x ≠ flag)
    (h2 : x ∉ o.getD []) : x ∉ optFlags flag o := by
  cases o with
  | none => simp [optFlags]
  | some vs => exact not_mem_pairFlags h1 (by simpa using h2)

lemma count_pairFlags_self (flag : String) (vs : List String) (h : flag ∉ vs) :
    (pairFlags flag vs).count flag = vs.length := by
  induction vs with
  | nil => rfl
  | cons v rest ih =>
    have hv : v ≠ flag := fun hc => h (by simp [hc])
    have hr : flag ∉ rest := fun hc => h (List.mem_cons_of_mem v hc)
    simp [pairFlags, List.count_cons, ih hr, hv]

lemma count_pairFlags_ne (f flag : String) (vs : List String) (h1 : f ≠ flag)
    (h2 : f ∉ vs) : (pairFlags flag vs).count f = 0 :=
  List.count_eq_zero.mpr (not_mem_pairFlags h1 h2)

lemma count_optFlags_ne (f flag : String) (o : Option (List String)) (h1 : f ≠ flag)
    (h2 : f ∉ o.getD []) : (optFlags flag o).count f = 0 :=
  List.count_eq_zero.mpr (not_mem_optFlags h1 h2)

lemma count_optFlags_self (flag : String) (o : Option (List String)) (h : flag ∉ o.getD []) :
    (optFlags flag o).count flag = (o.getD []).length := by
  cases o with
  | none => rfl
  | some vs => exact count_pairFlags_self flag vs (by simpa using h)

lemma flagValues_cons_ne (flag a : String) (l : List String) (h : a ≠ flag) :
    flagValues flag (a :: l) = flagValues flag l := by
  cases l with
  | nil => rfl
  | cons b rest => simp [flagValues, h]

lemma flagValues_append_of_not_mem (flag : String) (l r : List String) (h : flag ∉ l) :
    flagValues flag (l ++ r) = flagValues flag r := by
  induction l with
  | nil => rfl
  | cons a t ih =>
    have ha : a ≠ flag := fun hc => h (by simp [hc])
    have ht : flag ∉ t := fun hc => h (List.mem_cons_of_mem a hc)
    rw [List.cons_append, flagValues_cons_ne flag a (t ++ r) ha, ih ht]

lemma flagValues_pairFlags_self (flag : String) (vs r : List String) :
    flagValues flag (pairFlags flag vs ++ r) = vs ++ flagValues flag r := by
  induction vs with
  | nil => rfl
  | cons v t ih => simp [pairFlags, flagValues, ih]

lemma flagValues_pairFlags_ne (f flag : String) (vs r : List String)
    (h1 : f ≠ flag) (h2 : f ∉ vs) :
    flagValues f (pairFlags flag vs ++ r) = flagValues f r :=
  flagValues_append_of_not_mem f _ r (not_mem_pairFlags h1 h2)

lemma flagValues_optFlags_self (flag : String) (o : Option (List String)) (r : List String) :
    flagValues flag (optFlags flag o ++ r) = o.getD [] ++ flagValues flag r := by
  cases o with
  | none => rfl
  | some vs => simpa using flagValues_pairFlags_self flag vs r

lemma flagValues_optFlags_ne (f flag : String) (o : Option (List String)) (r : List String)
    (h1 : f ≠ flag) (h2 : f ∉ o.getD []) :
    flagValues f (optFlags flag o ++ r) = flagValues f r :=
  flagValues_append_of_not_mem f _ r (not_mem_optFlags h1 h2)

lemma severity_str_mem (s : Severity) :
    Severity.str s ∈ (["CRITICAL", "HIGH", "MEDIUM", "LOW", "INFO"] : List String) := by
  cases s <;> simp [Severity.str]

lemma not_mem_map_severity_str (f : String) (l : List Severity)
    (hf : f ∉ (["CRITICAL", "HIGH", "MEDIUM", "LOW", "INFO"] : List String)) :
    f ∉ l.map Severity.str := by
  intro hmem
  obtain ⟨s, _, rfl⟩ := List.mem_map.mp hmem
  exact hf (severity_str_mem s)

lemma optMap_getD (o : Option (List Severity)) :
    (o.map (fun l => l.map Severity.str)).getD [] = (o.getD []).map Severity.str := by
  cases o <;> rfl

lemma not_mem_pair {x a b : String} (h1 : x ≠ a) (h2 : x ≠ b) :
    x ∉ ([a, b] : List String) := by
  intro hmem
  rcases List.mem_cons.mp hmem with h | hmem
  · exact h1 h
  rcases List.mem_cons.mp hmem with h | hmem
  · exact h2 h
  · exact List.not_mem_nil x hmem

lemma not_mem_midBlock {x rd nm l q : String}
    (h1 : x ≠ "--output-path") (h2 : x ≠ rd) (h3 : x ≠ "--output-name") (h4 : x ≠ nm)
    (h5 : x ≠ "--libraries-path") (h6 : x ≠ l) (h7 : x ≠ "--queries-path") (h8 : x ≠ q) :
    x ∉ (["--output-path", rd, "--output-name", nm, "--libraries-path", l,
      "--queries-path", q] : List String) := by
  intro hmem
  simp only [List.mem_cons, List.not_mem_nil, or_false] at hmem
  rcases hmem with h | h | h | h | h | h | h | h
  exacts [h1 h, h2 h, h3 h, h4 h, h5 h, h6 h, h7 h, h8 h]

lemma flags_split (v : KicsValidator) (tps : List String) (rd dn : String) :
    v.flags tps rd dn =
      [v.kics, "scan"]
      ++ (pairFlags "--path" tps
      ++ (["--output-path", rd, "--output-name", v.name, "--libraries-path",
          Path.join [dn, "..", "assets", "libraries"], "--queries-path",
          Path.join [dn, "..", "assets", "queries"]]
      ++ (pairFlags "--fail-on" v.failureSeverities
      ++ (optFlags "--exclude-queries" v.excludeQueries
      ++ (optFlags "--exclude-categories" v.excludeCategories
      ++ (optFlags "--exclude-severities" v.excludeSeverities
      ++ ["--ci", "--report-formats", "\"json\""])))))) := by
  simp [KicsValidator.flags, List.append_assoc]

lemma construct_ok_fields (props : KicsValidatorProps) (osP osA dn : String)
    (v : KicsValidator) (hv : KicsValidator.construct props osP osA dn = Except.ok v) :
    v.name = "cdk-validator-kics" ∧
    v.excludeQueries = props.excludeQueries ∧
    v.excludeCategories = props.excludeCategories ∧
    v.excludeSeverities = props.excludeSeverities.map (fun l => l.map Severity.str) ∧
    v.failureSeverities
      = (props.failureSeverities.getD [Severity.HIGH, Severity.MEDIUM]).map Severity.str := by
  cases hg : getArch osA with
  | error e => simp [KicsValidator.construct, hg] at hv
  | ok arch =>
    simp only [KicsValidator.construct, hg] at hv
    injection hv with hv
    subst hv
    simp

lemma flags_fail_on (v : KicsValidator) (tps : List String) (rd dn : String)
    (hk : v.kics ≠ "--fail-on") (hn : v.name ≠ "--fail-on") (hrd : rd ≠ "--fail-on")
    (hlib : Path.join [dn, "..", "assets", "libraries"] ≠ "--fail-on")
    (hqrs : Path.join [dn, "..", "assets", "queries"] ≠ "--fail-on")
    (htp : "--fail-on" ∉ tps) (hfs : "--fail-on" ∉ v.failureSeverities)
    (he1 : "--fail-on" ∉ v.excludeQueries.getD [])
    (he2 : "--fail-on" ∉ v.excludeCategories.getD [])
    (he3 : "--fail-on" ∉ v.excludeSeverities.getD []) :
    (v.flags tps rd dn).count "--fail-on" = v.failureSeverities.length ∧
    flagValues "--fail-on" (v.flags tps rd dn) = v.failureSeverities := by
  have hA : "--fail-on" ∉ ([v.kics, "scan"] : List String) :=
    not_mem_pair (Ne.symm hk) (by decide)
  have hB : "--fail-on" ∉ (["--output-path", rd, "--output-name", v.name,
      "--libraries-path", Path.join [dn, "..", "assets", "libraries"],
      "--queries-path", Path.join [dn, "..", "assets", "queries"]] : List String) :=
    not_mem_midBlock (by decide) (Ne.symm hrd) (by decide) (Ne.symm hn) (by decide)
      (Ne.symm hlib) (by decide) (Ne.symm hqrs)
  constructor
  · simp only [KicsValidator.flags, List.count_append]
    rw [List.count_eq_zero.mpr hA, List.count_eq_zero.mpr hB,
      count_pairFlags_ne _ _ _ (by decide) htp,
      count_pairFlags_self _ _ hfs,
      count_optFlags_ne _ _ _ (by decide) he1,
      count_optFlags_ne _ _ _ (by decide) he2,
      count_optFlags_ne _ _ _ (by decide) he3,
      List.count_eq_zero.mpr (show "--fail-on" ∉
        (["--ci", "--report-formats", "\"json\""] : List String) by decide)]
    omega
  · rw [flags_split,
      flagValues_append_of_not_mem _ _ _ hA,
      flagValues_pairFlags_ne _ _ _ _ (by decide) htp,
      flagValues_append_of_not_mem _ _ _ hB,
      flagValues_pairFlags_self,
      flagValues_optFlags_ne _ _ _ _ (by decide) he1,
      flagValues_optFlags_ne _ _ _ _ (by decide) he2,
      flagValues_optFlags_ne _ _ _ _ (by decide) he3,
      show flagValues "--fail-on" ["--ci", "--report-formats", "\"json\""] = [] from rfl,
      List.append_nil]

lemma flags_exclude_queries (v : KicsValidator) (tps : List String) (rd dn : String)
    (hk : v.kics ≠ "--exclude-queries") (hn : v.name ≠ "--exclude-queries")
    (hrd : rd ≠ "--exclude-queries")
    (hlib : Path.join [dn, "..", "assets", "libraries"] ≠ "--exclude-queries")
    (hqrs : Path.join [dn, "..", "assets", "queries"] ≠ "--exclude-queries")
    (htp : "--exclude-queries" ∉ tps) (hfs : "--exclude-queries" ∉ v.failureSeverities)
    (he1 : "--exclude-queries" ∉ v.excludeQueries.getD [])
    (he2 : "--exclude-queries" ∉ v.excludeCategories.getD [])
    (he3 : "--exclude-queries" ∉ v.excludeSeverities.getD []) :
    (v.flags tps rd dn).count "--exclude-queries" = (v.excludeQueries.getD []).length ∧
    flagValues "--exclude-queries" (v.flags tps rd dn) = v.excludeQueries.getD [] := by
  have hA : "--exclude-queries" ∉ ([v.kics, "scan"] : List String) :=
    not_mem_pair (Ne.symm hk) (by decide)
  have hB : "--exclude-queries" ∉ (["--output-path", rd, "--output-name", v.name,
      "--libraries-path", Path.join [dn, "..", "assets", "libraries"],
      "--queries-path", Path.join [dn, "..", "assets", "queries"]] : List String) :=
    not_mem_midBlock (by decide) (Ne.symm hrd) (by decide) (Ne.symm hn) (by decide)
      (Ne.symm hlib) (by decide) (Ne.symm hqrs)
  constructor
  · simp only [KicsValidator.flags, List.count_append]
    rw [List.count_eq_zero.mpr hA, List.count_eq_zero.mpr hB,
      count_pairFlags_ne _ _ _ (by decide) htp,
      count_pairFlags_ne _ _ _ (by decide) hfs,
      count_optFlags_self _ _ he1,
      count_optFlags_ne _ _ _ (by decide) he2,
      count_optFlags_ne _ _ _ (by decide) he3,
      List.count_eq_zero.mpr (show "--exclude-queries" ∉
        (["--ci", "--report-formats", "\"json\""] : List String) by decide)]
    omega
  · rw [flags_split,
      flagValues_append_of_not_mem _ _ _ hA,
      flagValues_pairFlags_ne _ _ _ _ (by decide) htp,
      flagValues_append_of_not_mem _ _ _ hB,
      flagValues_pairFlags_ne _ _ _ _ (by decide) hfs,
      flagValues_optFlags_self,
      flagValues_optFlags_ne _ _ _ _ (by decide) he2,
      flagValues_optFlags_ne _ _ _ _ (by decide) he3,
      show flagValues "--exclude-queries" ["--ci", "--report-formats", "\"json\""] = []
        from rfl,
      List.append_nil]

lemma flags_exclude_categories (v : KicsValidator) (tps : List String) (rd dn : String)
    (hk : v.kics ≠ "--exclude-categories") (hn : v.name ≠ "--exclude-categories")
    (hrd : rd ≠ "--exclude-categories")
    (hlib : Path.join [dn, "..", "assets", "libraries"] ≠ "--exclude-categories")
    (hqrs : Path.join [dn, "..", "assets", "queries"] ≠ "--exclude-categories")
    (htp : "--exclude-categories" ∉ tps) (hfs : "--exclude-categories" ∉ v.failureSeverities)
    (he1 : "--exclude-categories" ∉ v.excludeQueries.getD [])
    (he2 : "--exclude-categories" ∉ v.excludeCategories.getD [])
    (he3 : "--exclude-categories" ∉ v.excludeSeverities.getD []) :
    (v.flags tps rd dn).count "--exclude-categories" = (v.excludeCategories.getD []).length ∧
    flagValues "--exclude-categories" (v.flags tps rd dn) = v.excludeCategories.getD [] := by
  have hA : "--exclude-categories" ∉ ([v.kics, "scan"] : List String) :=
    not_mem_pair (Ne.symm hk) (by decide)
  have hB : "--exclude-categories" ∉ (["--output-path", rd, "--output-name", v.name,
      "--libraries-path", Path.join [dn, "..", "assets", "libraries"],
      "--queries-path", Path.join [dn, "..", "assets", "queries"]] : List String) :=
    not_mem_midBlock (by decide) (Ne.symm hrd) (by decide) (Ne.symm hn) (by decide)
      (Ne.symm hlib) (by decide) (Ne.symm hqrs)
  constructor
  · simp only [KicsValidator.flags, List.count_append]
    rw [List.count_eq_zero.mpr hA, List.count_eq_zero.mpr hB,
      count_pairFlags_ne _ _ _ (by decide) htp,
      count_pairFlags_ne _ _ _ (by decide) hfs,
      count_optFlags_ne _ _ _ (by decide) he1,
      count_optFlags_self _ _ he2,
      count_optFlags_ne _ _ _ (by decide) he3,
      List.count_eq_zero.mpr (show "--exclude-categories" ∉
        (["--ci", "--report-formats", "\"json\""] : List String) by decide)]
    omega
  · rw [flags_split,
      flagValues_append_of_not_mem _ _ _ hA,
      flagValues_pairFlags_ne _ _ _ _ (by decide) htp,
      flagValues_append_of_not_mem _ _ _ hB,
      flagValues_pairFlags_ne _ _ _ _ (by decide) hfs,
      flagValues_optFlags_ne _ _ _ _ (by decide) he1,
      flagValues_optFlags_self,
      flagValues_optFlags_ne _ _ _ _ (by decide) he3,
      show flagValues "--exclude-categories" ["--ci", "--report-formats", "\"json\""] = []
        from rfl,
      List.append_nil]

lemma flags_exclude_severities (v : KicsValidator) (tps : List String) (rd dn : String)
    (hk : v.kics ≠ "--exclude-severities") (hn : v.name ≠ "--exclude-severities")
    (hrd : rd ≠ "--exclude-severities")
    (hlib : Path.join [dn, "..", "assets", "libraries"] ≠ "--exclude-severities")
    (hqrs : Path.join [dn, "..", "assets", "queries"] ≠ "--exclude-severities")
    (htp : "--exclude-severities" ∉ tps) (hfs : "--exclude-severities" ∉ v.failureSeverities)
    (he1 : "--exclude-severities" ∉ v.excludeQueries.getD [])
    (he2 : "--exclude-severities" ∉ v.excludeCategories.getD [])
    (he3 : "--exclude-severities" ∉ v.excludeSeverities.getD []) :
    (v.flags tps rd dn).count "--exclude-severities" = (v.excludeSeverities.getD []).length ∧
    flagValues "--exclude-severities" (v.flags tps rd dn) = v.excludeSeverities.getD [] := by
  have hA : "--exclude-severities" ∉ ([v.kics, "scan"] : List String) :=
    not_mem_pair (Ne.symm hk) (by decide)
  have hB : "--exclude-severities" ∉ (["--output-path", rd, "--output-name", v.name,
      "--libraries-path", Path.join [dn, "..", "assets", "libraries"],
      "--queries-path", Path.join [dn, "..", "assets", "queries"]] : List String) :=
    not_mem_midBlock (by decide) (Ne.symm hrd) (by decide) (Ne.symm hn) (by decide)
      (Ne.symm hlib) (by decide) (Ne.symm hqrs)
  constructor
  · simp only [KicsValidator.flags, List.count_append]
    rw [List.count_eq_zero.mpr hA, List.count_eq_zero.mpr hB,
      count_pairFlags_ne _ _ _ (by decide) htp,
      count_pairFlags_ne _ _ _ (by decide) hfs,
      count_optFlags_ne _ _ _ (by decide) he1,
      count_optFlags_ne _ _ _ (by decide) he2,
      count_optFlags_self _ _ he3,
      List.count_eq_zero.mpr (show "--exclude-severities" ∉
        (["--ci", "--report-formats", "\"json\""] : List String) by decide)]
    omega
  · rw [flags_split,
      flagValues_append_of_not_mem _ _ _ hA,
      flagValues_pairFlags_ne _ _ _ _ (by decide) htp,
      flagValues_append_of_not_mem _ _ _ hB,
      flagValues_pairFlags_ne _ _ _ _ (by decide) hfs,
      flagValues_optFlags_ne _ _ _ _ (by decide) he1,
      flagValues_optFlags_ne _ _ _ _ (by decide) he2,
      flagValues_optFlags_self,
      show flagValues "--exclude-severities" ["--ci", "--report-formats", "\"json\""] = []
        from rfl,
      List.append_nil]

lemma getArch_supported (osA : String) (h : osA = "x64" ∨ osA = "arm64") :
    ∃ a, getArch osA = Except.ok a := by
  rcases h with h | h <;> subst h <;> exact ⟨_, rfl⟩

lemma getArch_unsupported (osA : String) (h1 : osA ≠ "x64") (h2 : osA ≠ "arm64") :
    getArch osA = Except.error "Architecture is not supported" := by
  unfold getArch
  split <;> simp_all

lemma construct_exOk (props : KicsValidatorProps) (osP osA dn : String) :
    exOk (KicsValidator.construct props osP osA dn) = exOk (getArch osA) := by
  cases hg : getArch osA with
  | error e => simp [KicsValidator.construct, hg, exOk]
  | ok a => simp [KicsValidator.construct, hg, exOk]

/-- C1: on every parsed report whose findings all carry their `files`
list (the shape the schema requires), the mapper is one-to-one and
order-preserving: the violations list is exactly the input `queries`
list mapped finding-by-finding, with fix←query_url, ruleName←query_name,
description←description, severity←severity, and one violating resource
per file match carrying resource_name, the re-joined
dirname/basename of file_name, and the single-element `[search_key]`. -/
theorem finding_mapper_field_for_field (v : KicsValidator) (tps : List String)
    (report : KicsSchema) (h : ∀ q ∈ report.queries, q.files ≠ none) :
    (v.validate tps (ScanOutcome.parsed report)).violations =
      report.queries.map (fun q =>
        { fix := q.query_url
          ruleName := q.query_name
          description := q.description
          severity := q.severity
          violatingResources := (q.files.getD []).map (fun f =>
            { resourceLogicalId := f.resource_name
              templatePath := Path.join [Path.dirname f.file_name, Path.basename f.file_name]
              locations := [f.search_key] }) }) := by
  simp [KicsValidator.validate, runQueries_wf report.queries true [] h, mapQueryTotal,
    mapFile]

/-- Witness for C1 at a one-finding, two-file report. -/
theorem finding_mapper_field_for_field_witness :
    (∀ q ∈ (⟨[qWit]⟩ : KicsSchema).queries, q.files ≠ none) ∧
    (vWit.validate ["t"] (ScanOutcome.parsed ⟨[qWit]⟩)).violations =
      [{ fix := "https://docs.kics.io/q"
         ruleName := "S3 Bucket Logging Disabled"
         description := "Server access logging should be enabled"
         severity := "HIGH"
         violatingResources := [
           { resourceLogicalId := "BucketA", templatePath := "/a/template.json",
             locations := ["Resources.BucketA"] },
           { resourceLogicalId := "BucketB", templatePath := "sub/tpl.yaml",
             locations := ["Resources.BucketB"] }] }] :=
  ⟨by decide, by
    rw [finding_mapper_field_for_field vWit ["t"] ⟨[qWit]⟩ (by decide)]
    decide⟩

/-- C2: a successfully parsed report with a non-empty `queries` list
always yields `success = false`, whatever the severities involved. -/
theorem queries_present_force_failure (v : KicsValidator) (tps : List String)
    (report : KicsSchema) (h : report.queries ≠ []) :
    (v.validate tps (ScanOutcome.parsed report)).success = false := by
  obtain ⟨q, rest, hqr⟩ := List.exists_cons_of_ne_nil h
  simp [KicsValidator.validate, hqr, runQueries_cons_fst]

/-- Witness for C2: one query with two file matches gives
`success = false`, one violation, two violating resources. -/
theorem queries_present_force_failure_witness :
    ((⟨[qWit]⟩ : KicsSchema).queries ≠ []) ∧
    (vWit.validate ["t"] (ScanOutcome.parsed ⟨[qWit]⟩)).success = false ∧
    (vWit.validate ["t"] (ScanOutcome.parsed ⟨[qWit]⟩)).violations.length = 1 ∧
    (vWit.validate ["t"] (ScanOutcome.parsed ⟨[qWit]⟩)).violations.map
      (fun vio => vio.violatingResources.length) = [2] :=
  ⟨by decide, queries_present_force_failure vWit ["t"] ⟨[qWit]⟩ (by decide),
    by decide, by decide⟩

/-- C3: a successfully parsed report with `queries = []` yields
`success = true` and an empty violations list. -/
theorem empty_report_success (v : KicsValidator) (tps : List String)
    (report : KicsSchema) (h : report.queries = []) :
    v.validate tps (ScanOutcome.parsed report) = { violations := [], success := true } := by
  simp [KicsValidator.validate, h, runQueries]

/-- Witness for C3 at the empty report. -/
theorem empty_report_success_witness :
    ((⟨[]⟩ : KicsSchema).queries = []) ∧
    vWit.validate ["t"] (ScanOutcome.parsed ⟨[]⟩)
      = { violations := [], success := true } :=
  ⟨rfl, empty_report_success vWit ["t"] ⟨[]⟩ rfl⟩

/-- C4: every error thrown inside the `try` block — invocation failure,
missing report file, malformed JSON — is caught and converted into the
value `{violations: [], success: false}`; `validate` is a total function
into `ValidationPluginReport`, so no exception escapes it. -/
theorem scan_errors_swallowed (v : KicsValidator) (tps : List String) :
    v.validate tps ScanOutcome.execError = { violations := [], success := false } ∧
    v.validate tps ScanOutcome.readError = { violations := [], success := false } ∧
    v.validate tps ScanOutcome.parseError = { violations := [], success := false } :=
  ⟨rfl, rfl, rfl⟩

/-- C5: whenever `failureSeverities` is not supplied, the rendered
argument vector carries exactly two `--fail-on` flags, valued HIGH then
MEDIUM. (The inequality hypotheses only rule out the other, arbitrary,
configuration strings colliding with the literal token `--fail-on`.) -/
theorem default_failure_two_fail_on
    (props : KicsValidatorProps) (osP osA dn rd : String) (tps : List String)
    (v : KicsValidator)
    (hv : KicsValidator.construct props osP osA dn = Except.ok v)
    (hdef : props.failureSeverities = none)
    (htp : "--fail-on" ∉ tps)
    (hk : v.kics ≠ "--fail-on") (hrd : rd ≠ "--fail-on")
    (hlib : Path.join [dn, "..", "assets", "libraries"] ≠ "--fail-on")
    (hqrs : Path.join [dn, "..", "assets", "queries"] ≠ "--fail-on")
    (he1 : "--fail-on" ∉ props.excludeQueries.getD [])
    (he2 : "--fail-on" ∉ props.excludeCategories.getD []) :
    (v.flags tps rd dn).count "--fail-on" = 2 ∧
    flagValues "--fail-on" (v.flags tps rd dn) = ["HIGH", "MEDIUM"] := by
  obtain ⟨hname, hq, hc, hs, hf⟩ := construct_ok_fields props osP osA dn v hv
  have hfss : v.failureSeverities = ["HIGH", "MEDIUM"] := by
    rw [hf, hdef]; rfl
  have hmain := flags_fail_on v tps rd dn hk (by rw [hname]; decide) hrd hlib hqrs htp
    (by rw [hfss]; decide)
    (by rw [hq]; exact he1)
    (by rw [hc]; exact he2)
    (by rw [hs, optMap_getD]; exact not_mem_map_severity_str _ _ (by decide))
  rw [hfss] at hmain
  exact ⟨by simpa using hmain.1, hmain.2⟩

/-- Witness for C5 at concrete props without `failureSeverities`. -/
theorem default_failure_two_fail_on_witness :
    propsWit.failureSeverities = none ∧
    (vConsWit.flags ["t.json"] "/tmp" "/plugin/lib").count "--fail-on" = 2 ∧
    flagValues "--fail-on" (vConsWit.flags ["t.json"] "/tmp" "/plugin/lib")
      = ["HIGH", "MEDIUM"] := by
  have h := default_failure_two_fail_on propsWit "linux" "x64" "/plugin/lib" "/tmp"
    ["t.json"] vConsWit rfl rfl (by decide) (by decide) (by decide) (by decide)
    (by decide) (by decide) (by decide)
  exact ⟨rfl, h.1, h.2⟩

/-- C6: each of the three exclusion lists contributes exactly one
corresponding repeated `--exclude-*` flag per element, in input order,
and zero flags when absent (the `getD []` default covers both the absent
and the empty case). The inequality hypotheses only rule out the other,
arbitrary, configuration strings colliding with the three literal flag
tokens. -/
theorem exclude_flags_render
    (props : KicsValidatorProps) (osP osA dn rd : String) (tps : List String)
    (v : KicsValidator)
    (hv : KicsValidator.construct props osP osA dn = Except.ok v)
    (htp1 : "--exclude-queries" ∉ tps) (htp2 : "--exclude-categories" ∉ tps)
    (htp3 : "--exclude-severities" ∉ tps)
    (hk1 : v.kics ≠ "--exclude-queries") (hk2 : v.kics ≠ "--exclude-categories")
    (hk3 : v.kics ≠ "--exclude-severities")
    (hrd1 : rd ≠ "--exclude-queries") (hrd2 : rd ≠ "--exclude-categories")
    (hrd3 : rd ≠ "--exclude-severities")
    (hlib1 : Path.join [dn, "..", "assets", "libraries"] ≠ "--exclude-queries")
    (hlib2 : Path.join [dn, "..", "assets", "libraries"] ≠ "--exclude-categories")
    (hlib3 : Path.join [dn, "..", "assets", "libraries"] ≠ "--exclude-severities")
    (hqrs1 : Path.join [dn, "..", "assets", "queries"] ≠ "--exclude-queries")
    (hqrs2 : Path.join [dn, "..", "assets", "queries"] ≠ "--exclude-categories")
    (hqrs3 : Path.join [dn, "..", "assets", "queries"] ≠ "--exclude-severities")
    (hq1 : "--exclude-queries" ∉ props.excludeQueries.getD [])
    (hq2 : "--exclude-queries" ∉ props.excludeCategories.getD [])
    (hc1 : "--exclude-categories" ∉ props.excludeQueries.getD [])
    (hc2 : "--exclude-categories" ∉ props.excludeCategories.getD [])
    (hs1 : "--exclude-severities" ∉ props.excludeQueries.getD [])
    (hs2 : "--exclude-severities" ∉ props.excludeCategories.getD []) :
    ((v.flags tps rd dn).count "--exclude-queries"
        = (props.excludeQueries.getD []).length ∧
      flagValues "--exclude-queries" (v.flags tps rd dn)
        = props.excludeQueries.getD []) ∧
    ((v.flags tps rd dn).count "--exclude-categories"
        = (props.excludeCategories.getD []).length ∧
      flagValues "--exclude-categories" (v.flags tps rd dn)
        = props.excludeCategories.getD []) ∧
    ((v.flags tps rd dn).count "--exclude-severities"
        = (props.excludeSeverities.getD []).length ∧
      flagValues "--exclude-severities" (v.flags tps rd dn)
        = (props.excludeSeverities.getD []).map Severity.str) := by
  obtain ⟨hname, hq, hc, hs, hf⟩ := construct_ok_fields props osP osA dn v hv
  refine ⟨?_, ?_, ?_⟩
  · have h := flags_exclude_queries v tps rd dn hk1 (by rw [hname]; decide) hrd1 hlib1
      hqrs1 htp1 (by rw [hf]; exact not_mem_map_severity_str _ _ (by decide))
      (by rw [hq]; exact hq1) (by rw [hc]; exact hq2)
      (by rw [hs, optMap_getD]; exact not_mem_map_severity_str _ _ (by decide))
    rw [hq] at h
    exact h
  · have h := flags_exclude_categories v tps rd dn hk2 (by rw [hname]; decide) hrd2 hlib2
      hqrs2 htp2 (by rw [hf]; exact not_mem_map_severity_str _ _ (by decide))
      (by rw [hq]; exact hc1) (by rw [hc]; exact hc2)
      (by rw [hs, optMap_getD]; exact not_mem_map_severity_str _ _ (by decide))
    rw [hc] at h
    exact h
  · have h := flags_exclude_severities v tps rd dn hk3 (by rw [hname]; decide) hrd3 hlib3
      hqrs3 htp3 (by rw [hf]; exact not_mem_map_severity_str _ _ (by decide))
      (by rw [hq]; exact hs1) (by rw [hc]; exact hs2)
      (by rw [hs, optMap_getD]; exact not_mem_map_severity_str _ _ (by decide))
    rw [hs, optMap_getD] at h
    exact ⟨by simpa using h.1, h.2⟩

/-- Witness for C6: one excluded query, absent categories, one excluded
severity. -/
theorem exclude_flags_render_witness :
    ((vConsWit.flags ["t.json"] "/tmp" "/plugin/lib").count "--exclude-queries" = 1 ∧
      flagValues "--exclude-queries" (vConsWit.flags ["t.json"] "/tmp" "/plugin/lib")
        = ["q1"]) ∧
    ((vConsWit.flags ["t.json"] "/tmp" "/plugin/lib").count "--exclude-categories" = 0 ∧
      flagValues "--exclude-categories" (vConsWit.flags ["t.json"] "/tmp" "/plugin/lib")
        = []) ∧
    ((vConsWit.flags ["t.json"] "/tmp" "/plugin/lib").count "--exclude-severities" = 1 ∧
      flagValues "--exclude-severities" (vConsWit.flags ["t.json"] "/tmp" "/plugin/lib")
        = ["LOW"]) := by
  have h := exclude_flags_render propsWit "linux" "x64" "/plugin/lib" "/tmp"
    ["t.json"] vConsWit rfl
    (by decide) (by decide) (by decide)
    (by decide) (by decide) (by decide)
    (by decide) (by decide) (by decide)
    (by decide) (by decide) (by decide)
    (by decide) (by decide) (by decide)
    (by decide) (by decide) (by decide) (by decide) (by decide) (by decide)
  simpa [propsWit, Severity.str] using h

/-- C7: construction succeeds exactly on the two supported
architectures (`os.arch()` equal to `x64` or `arm64`); on any other
architecture `getArch` throws inside the constructor, so the error is
raised at construction time. The scan entry point (`validate`) takes no
architecture input at all in this embedding, so no architecture check is
deferred to scan time. -/
theorem arch_checked_at_construction (props : KicsValidatorProps) (osP osA dn : String) :
    exOk (KicsValidator.construct props osP osA dn) = true
      ↔ (osA = "x64" ∨ osA = "arm64") := by
  rw [construct_exOk]
  constructor
  · intro hok
    by_contra hc
    push_neg at hc
    rw [getArch_unsupported osA hc.1 hc.2] at hok
    exact absurd hok (by simp [exOk])
  · intro h
    obtain ⟨a, ha⟩ := getArch_supported osA h
    rw [ha]
    rfl

/-- C8: on every input and every outcome, if the returned result has
`success = true` then its violations list is empty (the loop flips
`success` to `false` the moment it appends anything, and the error path
returns an empty list). -/
theorem success_implies_empty_violations (v : KicsValidator) (tps : List String)
    (o : ScanOutcome) (h : (v.validate tps o).success = true) :
    (v.validate tps o).violations = [] := by
  cases o with
  | execError => simp [KicsValidator.validate] at h
  | readError => simp [KicsValidator.validate] at h
  | parseError => simp [KicsValidator.validate] at h
  | parsed output =>
    cases hq : output.queries with
    | nil => simp [KicsValidator.validate, hq, runQueries]
    | cons q rest => simp [KicsValidator.validate, hq, runQueries_cons_fst] at h

/-- Witness for C8 at the empty parsed report. -/
theorem success_implies_empty_violations_witness :
    (vWit.validate [] (ScanOutcome.parsed ⟨[]⟩)).success = true ∧
    (vWit.validate [] (ScanOutcome.parsed ⟨[]⟩)).violations = [] :=
  ⟨rfl, success_implies_empty_violations vWit [] (ScanOutcome.parsed ⟨[]⟩) rfl⟩

/-- C9: when the report parses but mapping throws partway through — here
at a finding without a `files` field placed after well-formed findings —
`validate` still returns normally with `success = false` and the
violations mapped before the failure kept in the result, so the
violations list is not empty in every error case. -/
theorem mapping_throw_keeps_mapped_front (v : KicsValidator) (tps : List String)
    (front : List RawFinding) (bad : RawFinding) (rest : List RawFinding)
    (h1 : ∀ q ∈ front, q.files ≠ none) (hb : bad.files = none) :
    v.validate tps (ScanOutcome.parsed ⟨front ++ bad :: rest⟩) =
      { violations := front.map mapQueryTotal, success := false } := by
  simp only [KicsValidator.validate]
  rw [runQueries_stops front bad rest true [] h1 hb]
  simp

/-- Witness for C9: a well-formed finding followed by a `files`-less
one yields `success = false` with a non-empty violations list. -/
theorem mapping_throw_keeps_mapped_front_witness :
    (∀ q ∈ [qWit], q.files ≠ none) ∧ qWitBad.files = none ∧
    vWit.validate [] (ScanOutcome.parsed ⟨[qWit] ++ qWitBad :: []⟩) =
      { violations := [mapQueryTotal qWit], success := false } ∧
    (vWit.validate [] (ScanOutcome.parsed ⟨[qWit] ++ qWitBad :: []⟩)).violations ≠ [] :=
  ⟨by decide, rfl,
    by
      have h := mapping_throw_keeps_mapped_front vWit [] [qWit] qWitBad [] (by decide) rfl
      simpa using h,
    by decide⟩

/-- C10: an empty template-path list is not special-cased: the argument
vector is still built, with zero `--path` flags, and the result is
computed from the scan outcome exactly as for any other path list.
(The inequality hypotheses only rule out the other, arbitrary,
configuration strings colliding with the literal token `--path`.) -/
theorem empty_paths_still_invoked (v : KicsValidator) (tps : List String)
    (rd dn : String) (o : ScanOutcome)
    (hk : v.kics ≠ "--path") (hn : v.name ≠ "--path") (hrd : rd ≠ "--path")
    (hlib : Path.join [dn, "..", "assets", "libraries"] ≠ "--path")
    (hqrs : Path.join [dn, "..", "assets", "queries"] ≠ "--path")
    (hfs : "--path" ∉ v.failureSeverities)
    (he1 : "--path" ∉ v.excludeQueries.getD [])
    (he2 : "--path" ∉ v.excludeCategories.getD [])
    (he3 : "--path" ∉ v.excludeSeverities.getD []) :
    (v.flags [] rd dn).count "--path" = 0 ∧
    v.validate [] o = v.validate tps o := by
  refine ⟨?_, rfl⟩
  simp only [KicsValidator.flags, List.count_append]
  rw [List.count_eq_zero.mpr (not_mem_pair (Ne.symm hk)
      (show ("--path" : String) ≠ "scan" by decide)),
    List.count_eq_zero.mpr (not_mem_midBlock (by decide) (Ne.symm hrd) (by decide)
      (Ne.symm hn) (by decide) (Ne.symm hlib) (by decide) (Ne.symm hqrs)),
    count_pairFlags_self "--path" [] (by simp),
    count_pairFlags_ne _ _ _ (by decide) hfs,
    count_optFlags_ne _ _ _ (by decide) he1,
    count_optFlags_ne _ _ _ (by decide) he2,
    count_optFlags_ne _ _ _ (by decide) he3,
    List.count_eq_zero.mpr (show "--path" ∉
      (["--ci", "--report-formats", "\"json\""] : List String) by decide)]
  simp

/-- Witness for C10 at a concrete validator and outcome. -/
theorem empty_paths_still_invoked_witness :
    (vWit.flags [] "/tmp" "/plugin/lib").count "--path" = 0 ∧
    vWit.validate [] (ScanOutcome.parsed ⟨[qWit]⟩)
      = vWit.validate ["a.json", "b.json"] (ScanOutcome.parsed ⟨[qWit]⟩) :=
  empty_paths_still_invoked vWit ["a.json", "b.json"] "/tmp" "/plugin/lib"
    (ScanOutcome.parsed ⟨[qWit]⟩) (by decide) (by decide) (by decide) (by decide)
    (by decide) (by decide) (by decide) (by decide) (by decide)

end CdkKics

